import Mathlib

/-!
Shallow embedding of the document-rendering code of the wooddashboard
repository: the heading extractor and anchor-slug computation
(src/unnamed/part_004, functions getHeadings and CustomHeading), the
front-matter handling and page assembly (postPage, in src/app/[slug]/page.tsx
and src/unnamed/part_004), the configured MDX plugin pipeline, the
per-document component-override loading, and the two versions of
generateStaticParams.
-/

namespace Wood

/-! ### JavaScript string primitives, embedded over character lists -/

/-- Embeds JavaScript String.prototype.toLowerCase for one character.
The repository applies it to heading text; the ASCII range is the one the
slug regex class can keep, and Char.toLower lowers exactly that range. -/
def jsCharLower (c : Char) : Char := c.toLower

/-- A character kept by the regex class under the replacement
replace(/[^a-z0-9]+/g, "-"): a lowercase ASCII letter or a digit. -/
def isSlugChar (c : Char) : Bool :=
  ('a' ≤ c && c ≤ 'z') || ('0' ≤ c && c ≤ '9')

/-- Embeds replace(/[^a-z0-9]+/g, "-"): every maximal run of characters
outside [a-z0-9] becomes a single dash. The Boolean flag records whether
the previous character belonged to such a run. -/
def collapseAux : Bool → List Char → List Char
  | _, [] => []
  | inRun, c :: cs =>
    if isSlugChar c then c :: collapseAux false cs
    else if inRun then collapseAux true cs
    else '-' :: collapseAux true cs

/-- Embeds the slug expression text.toLowerCase().replace(/[^a-z0-9]+/g, "-")
that appears verbatim at src/unnamed/part_004 line 64 (CustomHeading) and
line 190 (getHeadings). -/
def jsLowerDashSlug (s : String) : String :=
  String.mk (collapseAux false (s.data.map jsCharLower))

/-- Embeds JavaScript s.split(sep) for a one-character separator:
accumulates the current field in reverse and emits it at each separator. -/
def splitCharAux (sep : Char) : List Char → List Char → List String
  | acc, [] => [String.mk acc.reverse]
  | acc, c :: rest =>
    if c = sep then String.mk acc.reverse :: splitCharAux sep [] rest
    else splitCharAux sep (c :: acc) rest

/-- JavaScript s.split(sep) for a one-character separator. -/
def jsSplitChar (sep : Char) (s : String) : List String :=
  splitCharAux sep [] s.data

/-! ### Heading extraction: getHeadings, src/unnamed/part_004 lines 181-194 -/

/-- One record of the table of contents: the object with fields text, id and
depth built by getHeadings (src/unnamed/part_004 lines 185-193). -/
structure HeadingRecord where
  text : String
  id : String
  depth : Nat
deriving DecidableEq, Repr

/-- Embeds the regex match of caret, two-to-three hashes, space used by
getHeadings: greedy, so a line starting with three hashes and a space
matches with captured marker length 3; otherwise two hashes and a space
match with length 2. Returns the captured marker length together with the
result of replacing the matched marker by the empty string. -/
def matchHeadingMarker (line : String) : Option (Nat × String) :=
  if ['#', '#', '#', ' '].isPrefixOf line.data then
    some (3, String.mk (line.data.drop 4))
  else if ['#', '#', ' '].isPrefixOf line.data then
    some (2, String.mk (line.data.drop 3))
  else none

/-- The filter predicate of getHeadings: whether the heading-marker regex
matches the line. -/
def isHeadingLine (line : String) : Bool :=
  (matchHeadingMarker line).isSome

/-- The captured marker length. The source only evaluates this on lines
that passed the filter, so the value on other lines is arbitrary. -/
def headingLevel (line : String) : Nat :=
  match matchHeadingMarker line with
  | some (len, _) => len
  | none => 0

/-- The line with the matched heading marker removed; a line with no match
is returned unchanged, as JavaScript replace does. -/
def headingText (line : String) : String :=
  match matchHeadingMarker line with
  | some (_, rest) => rest
  | none => line

/-- The record the getHeadings map callback builds from one kept line:
the stripped text, its slug as id, and the captured marker length as
depth (src/unnamed/part_004 lines 185-193). -/
def headingRecord (line : String) : HeadingRecord :=
  { text := headingText line
    id := jsLowerDashSlug (headingText line)
    depth := headingLevel line }

/-- Embeds getHeadings (src/unnamed/part_004 lines 181-194): split the body
on newlines, keep the lines matching the heading-marker regex, and build
one record per kept line. -/
def getHeadings (content : String) : List HeadingRecord :=
  ((jsSplitChar '\n' content).filter isHeadingLine).map headingRecord

/-- Embeds the anchor id computed by CustomHeading (src/unnamed/part_004
lines 55-77): text is children converted to a string, an absent children
value giving the empty string, and the id is the slug of that text. The id
is computed from the raw children text, before the display-only cleanText
strips any leading hash marks. -/
def customHeadingId (children : Option String) : String :=
  jsLowerDashSlug (children.getD "")

/-- A rendered child of a heading element as React passes it to
CustomHeading: a plain text run, or a nested element (for example the
inline-code element produced by a code span in the heading), carrying its
tag and its text content. -/
inductive ReactNode where
  | text (s : String)
  | element (tag : String) (inner : String)
deriving DecidableEq, Repr

/-- JavaScript stringification of one React child: a text run is the string
itself, while an element is a plain object and stringifies as the object
placeholder. -/
def jsStringOfNode : ReactNode → String
  | ReactNode.text s => s
  | ReactNode.element _ _ => "[object Object]"

/-- Comma join of JavaScript array stringification. -/
def joinComma : List String → String
  | [] => ""
  | [s] => s
  | s :: rest => s ++ "," ++ joinComma rest

/-- Embeds the children-to-string step of CustomHeading line 63: absent
children give the empty string, a single child is stringified alone, and
multiple children form an array whose toString comma-joins the
stringification of each element. -/
def jsChildrenToString (children : List ReactNode) : String :=
  match children with
  | [] => ""
  | [c] => jsStringOfNode c
  | cs => joinComma (cs.map jsStringOfNode)

/-- The id CustomHeading computes from the React children it receives:
the children stringified as above, then the slug expression of line 64. -/
def customHeadingIdOfChildren (children : List ReactNode) : String :=
  customHeadingId (some (jsChildrenToString children))

/-- The backtick character, written by code point. -/
def backtickChar : Char := Char.ofNat 96

/-- Alternation state walk over backtick-separated segments: segments in
even position are text runs, segments in odd position are inline-code
elements. -/
def alternateChildren : Bool → List String → List ReactNode
  | _, [] => []
  | false, s :: rest => ReactNode.text s :: alternateChildren true rest
  | true, s :: rest =>
    ReactNode.element "code" s :: alternateChildren false rest

/-- Modelled from the markdown inline syntax the MDX parser applies to
heading text before CustomHeading receives it: code spans delimited by
backticks become inline-code elements, so a heading text containing a code
span reaches CustomHeading as an array of text runs and elements, while a
plain heading text reaches it as one single text child. -/
def parseInlineChildren (text : String) : List ReactNode :=
  alternateChildren false (jsSplitChar backtickChar text)

/-! ### Line-level characterization of the heading marker (for claim C6) -/

/-- Number of leading hash characters of a character list. -/
def countLeadingHashes : List Char → Nat
  | [] => 0
  | c :: rest => if c = '#' then countLeadingHashes rest + 1 else 0

/-- The line bears a heading marker of depth d: exactly d leading hash
characters followed by a space. -/
def BearsMarker (line : String) (d : Nat) : Prop :=
  countLeadingHashes line.data = d ∧ (line.data.drop d).head? = some ' '

instance (line : String) (d : Nat) : Decidable (BearsMarker line d) := by
  unfold BearsMarker; infer_instance

/-- The record getHeadings builds from one line, as an optional value:
some exactly when the line passes the heading-marker filter. -/
def headingRecordOfLine (line : String) : Option HeadingRecord :=
  match matchHeadingMarker line with
  | some (len, rest) =>
    some { text := rest, id := jsLowerDashSlug rest, depth := len }
  | none => none

lemma prefix3_iff (l : List Char) :
    ['#', '#', '#', ' '].isPrefixOf l = true ↔
      (countLeadingHashes l = 3 ∧ (l.drop 3).head? = some ' ') := by
  match l with
  | [] => simp [List.isPrefixOf, countLeadingHashes]
  | [a] =>
    by_cases ha : a = '#' <;>
      simp +decide [List.isPrefixOf, countLeadingHashes, ha]
  | [a, b] =>
    by_cases ha : a = '#' <;> by_cases hb : b = '#' <;>
      simp +decide [List.isPrefixOf, countLeadingHashes, ha, hb]
  | [a, b, c] =>
    by_cases ha : a = '#' <;> by_cases hb : b = '#' <;> by_cases hc : c = '#' <;>
      simp +decide [List.isPrefixOf, countLeadingHashes, ha, hb, hc]
  | a :: b :: c :: d :: rest =>
    by_cases ha : a = '#' <;> by_cases hb : b = '#' <;> by_cases hc : c = '#' <;>
      by_cases hd : d = ' ' <;>
      simp +decide [List.isPrefixOf, countLeadingHashes, ha, hb, hc, hd] <;>
      simp [eq_comm, ha, hb, hc, hd]

lemma prefix2_iff (l : List Char) :
    ['#', '#', ' '].isPrefixOf l = true ↔
      (countLeadingHashes l = 2 ∧ (l.drop 2).head? = some ' ') := by
  match l with
  | [] => simp [List.isPrefixOf, countLeadingHashes]
  | [a] =>
    by_cases ha : a = '#' <;>
      simp +decide [List.isPrefixOf, countLeadingHashes, ha]
  | [a, b] =>
    by_cases ha : a = '#' <;> by_cases hb : b = '#' <;>
      simp +decide [List.isPrefixOf, countLeadingHashes, ha, hb]
  | a :: b :: c :: rest =>
    by_cases ha : a = '#' <;> by_cases hb : b = '#' <;> by_cases hc : c = ' ' <;>
      simp +decide [List.isPrefixOf, countLeadingHashes, ha, hb, hc] <;>
      simp [eq_comm, ha, hb, hc]

lemma filter_map_record (l : List String) :
    (l.filter isHeadingLine).map headingRecord =
      l.filterMap headingRecordOfLine := by
  induction l with
  | nil => rfl
  | cons a l ih =>
    cases h : matchHeadingMarker a with
    | none =>
      have ha : isHeadingLine a = false := by simp [isHeadingLine, h]
      simp [List.filter_cons, List.filterMap_cons, ha, headingRecordOfLine, h, ih]
    | some p =>
      rcases p with ⟨len, rest⟩
      have ha : isHeadingLine a = true := by simp [isHeadingLine, h]
      have hhead : headingRecord a =
          { text := rest, id := jsLowerDashSlug rest, depth := len } := by
        simp [headingRecord, headingText, headingLevel, h]
      simp [List.filter_cons, List.filterMap_cons, ha, headingRecordOfLine, h, ih, hhead]

lemma getHeadings_id_eq (content : String) (r : HeadingRecord)
    (hr : r ∈ getHeadings content) : r.id = jsLowerDashSlug r.text := by
  unfold getHeadings at hr
  rcases List.mem_map.mp hr with ⟨line, _, heq⟩
  rw [← heq]
  rfl

/-! ### Claims C1, C2 and C6: the heading extractor and the anchor ids -/

/-- Claim C1, counterexample: on the body of the specification example the
extractor assigns BOTH headings the id "intro"; the claimed "-2" suffix for
the second colliding heading is never produced. -/
theorem c1_counterexample :
    getHeadings "## Intro\n\n## Intro\n" ≠
      [{ text := "Intro", id := "intro", depth := 2 },
       { text := "Intro", id := "intro-2", depth := 2 }] := by
  decide

/-- Claim C1, amended: the anchor id is the heading text lower-cased with
every maximal non-alphanumeric run replaced by a single dash, with no
trimming of leading or trailing dashes and no collision disambiguation:
headings with equal text receive equal ids, and the example body yields two
records that BOTH carry the id "intro". -/
theorem c1_amended :
    getHeadings "## Intro\n\n## Intro\n" =
      [{ text := "Intro", id := "intro", depth := 2 },
       { text := "Intro", id := "intro", depth := 2 }]
    ∧ getHeadings "## Intro!\n" = [{ text := "Intro!", id := "intro-", depth := 2 }]
    ∧ ∀ content : String, ∀ r ∈ getHeadings content, ∀ s ∈ getHeadings content,
        r.text = s.text → r.id = s.id := by
  refine ⟨by decide, by decide, ?_⟩
  intro content r hr s hs hts
  rw [getHeadings_id_eq content r hr, getHeadings_id_eq content s hs, hts]

/-- Witness for the amended claim C1 at a concrete document. -/
theorem c1_amended_witness :
    ({ text := "Intro", id := "intro", depth := 2 } : HeadingRecord).id =
      ({ text := "Intro", id := "intro", depth := 2 } : HeadingRecord).id :=
  c1_amended.2.2 "## Intro\n\n## Intro\n"
    { text := "Intro", id := "intro", depth := 2 } (by decide)
    { text := "Intro", id := "intro", depth := 2 } (by decide) rfl

/-- Claim C2, counterexample: the TOC id and the in-body id do NOT always
agree. For the body whose single heading holds an inline code span, the
extractor slugs the raw line text to "the-map-function", while
CustomHeading receives the heading as an array of text runs and an
inline-code element, stringifies it with comma-joined object placeholders,
and generates the id "the-object-object-function" on the rendered heading
element — a different anchor. -/
theorem c2_counterexample :
    (getHeadings "## The `map` function\n").map HeadingRecord.id =
      ["the-map-function"]
    ∧ (getHeadings "## The `map` function\n").map
        (fun r => customHeadingIdOfChildren (parseInlineChildren r.text)) =
      ["the-object-object-function"]
    ∧ ("the-map-function" : String) ≠ "the-object-object-function" := by
  decide

/-- Claim C2, amended: the id CustomHeading generates on the rendered
heading agrees with the id recorded in the table of contents exactly when
the rendered children stringify to the extracted heading text — which is
the case for every plain-text heading, whose children reach CustomHeading
as one single text run; headings with inline markup can break the
agreement, as the counterexample shows. -/
theorem c2_amended (content : String) (r : HeadingRecord)
    (hr : r ∈ getHeadings content) (children : List ReactNode)
    (hsame : jsChildrenToString children = r.text) :
    customHeadingIdOfChildren children = r.id := by
  rw [getHeadings_id_eq content r hr, ← hsame]
  rfl

/-- Witness for the amended claim C2 at a concrete plain-text heading. -/
theorem c2_amended_witness :
    customHeadingIdOfChildren [ReactNode.text "Setup"] = "setup" :=
  c2_amended "## Setup\n### Setup\n"
    { text := "Setup", id := "setup", depth := 2 } (by decide)
    [ReactNode.text "Setup"] (by decide)

/-- Claim C6: the heading extractor scans the body line-by-line, producing,
in line order, exactly one record per line bearing a depth-2 or depth-3
heading marker — a record is produced for a line precisely when the line
bears a marker of depth 2 or 3 (so depth-1 and depth-4-or-more lines
produce none) — and the recorded depth is the marker depth. -/
theorem c6_heading_extractor (content : String) :
    getHeadings content = (jsSplitChar '\n' content).filterMap headingRecordOfLine
    ∧ (∀ line : String,
        (headingRecordOfLine line).isSome = true ↔ (BearsMarker line 2 ∨ BearsMarker line 3))
    ∧ (∀ line : String, ∀ r : HeadingRecord,
        headingRecordOfLine line = some r → BearsMarker line r.depth) := by
  refine ⟨filter_map_record (jsSplitChar '\n' content), ?_, ?_⟩
  · intro line
    unfold headingRecordOfLine matchHeadingMarker BearsMarker
    by_cases h3 : ['#', '#', '#', ' '].isPrefixOf line.data = true
    · simp only [h3, if_true, Option.isSome_some, true_iff]
      exact Or.inr ((prefix3_iff line.data).mp h3)
    · by_cases h2 : ['#', '#', ' '].isPrefixOf line.data = true
      · simp only [h3, h2, Bool.false_eq_true, if_false, if_true,
          Option.isSome_some, true_iff]
        exact Or.inl ((prefix2_iff line.data).mp h2)
      · simp only [h3, h2, Bool.false_eq_true, if_false, Option.isSome_none]
        constructor
        · intro hfalse
          exact absurd hfalse (by simp)
        · intro hor
          rcases hor with hb | hb
          · exact absurd ((prefix2_iff line.data).mpr hb) h2
          · exact absurd ((prefix3_iff line.data).mpr hb) h3
  · intro line r hsome
    unfold headingRecordOfLine matchHeadingMarker at hsome
    unfold BearsMarker
    by_cases h3 : ['#', '#', '#', ' '].isPrefixOf line.data = true
    · simp only [h3, if_true, Option.some.injEq] at hsome
      rw [← hsome]
      exact (prefix3_iff line.data).mp h3
    · by_cases h2 : ['#', '#', ' '].isPrefixOf line.data = true
      · simp only [h3, h2, Bool.false_eq_true, if_false, if_true,
          Option.some.injEq] at hsome
        rw [← hsome]
        exact (prefix2_iff line.data).mp h2
      · simp [h3, h2] at hsome

/-- Witness for claim C6 at a concrete line. -/
theorem c6_heading_extractor_witness :
    BearsMarker "### Setup" 3 :=
  (c6_heading_extractor "").2.2 "### Setup"
    { text := "Setup", id := "setup", depth := 3 } (by decide)

/-! ### Front matter (model of the gray-matter library) and dates -/

/-- Splits a character list at the first occurrence of sep, returning the
parts strictly before and strictly after it. -/
def findSplit (sep : List Char) : List Char → Option (List Char × List Char)
  | [] => none
  | c :: rest =>
    if sep.isPrefixOf (c :: rest) then some ([], (c :: rest).drop sep.length)
    else
      match findSplit sep rest with
      | some (pre, post) => some (c :: pre, post)
      | none => none

/-- The single-quote character, written by code point. -/
def quoteChar : Char := Char.ofNat 39

/-- Strips one pair of surrounding single quotes from a scalar value, as the
front matter of this repository writes quoted strings. -/
def stripQuotes (s : List Char) : List Char :=
  match s with
  | q :: rest =>
    if q = quoteChar ∧ rest.getLast? = some quoteChar then rest.dropLast else q :: rest
  | [] => []

/-- Parses one front matter line of the form key, colon, space, value. -/
def parseFMLine (line : String) : Option (String × String) :=
  match findSplit [':', ' '] line.data with
  | some (k, v) => some (String.mk k, String.mk (stripQuotes v))
  | none => none

/-- Parses the simple key-value front matter blocks used by this repository. -/
def parseFrontMatter (fm : String) : List (String × String) :=
  (jsSplitChar '\n' fm).filterMap parseFMLine

/-- The result object of the gray-matter call: parsed data and the body. -/
structure MatterResult where
  data : List (String × String)
  content : String
deriving DecidableEq, Repr

/-- Models the gray-matter library on the inputs this repository uses: a
file opening with a dashed delimiter line has the block up to the closing
delimiter line parsed as key-value pairs and the text after it returned as
content; a file not opening with the delimiter has empty data and is
returned whole as content. -/
def matter (file : String) : MatterResult :=
  if ['-', '-', '-', '\n'].isPrefixOf file.data then
    match findSplit ['\n', '-', '-', '-', '\n'] (file.data.drop 4) with
    | some (fm, body) =>
      { data := parseFrontMatter (String.mk fm), content := String.mk body }
    | none => { data := [], content := file }
  else { data := [], content := file }

/-- JavaScript property access on a parsed object, none modelling an
undefined property. -/
def assocGet {β : Type} (l : List (String × β)) (key : String) : Option β :=
  match l with
  | [] => none
  | (k, v) :: rest => if k = key then some v else assocGet rest key

/-- Decimal digit character of a value below ten. -/
def digitChar (n : Nat) : Char := Char.ofNat (48 + n)

/-- Fuel-driven decimal rendering of a natural number. -/
def natToStrAux : Nat → Nat → List Char
  | 0, _ => []
  | fuel + 1, n =>
    if n < 10 then [digitChar n]
    else natToStrAux fuel (n / 10) ++ [digitChar (n % 10)]

/-- Decimal rendering of a natural number. -/
def natToStr (n : Nat) : String := String.mk (natToStrAux (n + 1) n)

/-- Parses a nonempty all-digit character list as a natural number. -/
def parseNatDigits (l : List Char) : Option Nat :=
  if l ≠ [] ∧ l.all Char.isDigit then
    some (l.foldl (fun n c => n * 10 + (c.toNat - 48)) 0)
  else none

/-- Models the JavaScript Date constructor on the argument the page passes:
an undefined value or a string that is not an ISO calendar date gives an
invalid date (none); a date string of the form year-month-day with a month
from 1 to 12 and a day from 1 to 31 parses to its components. -/
def jsNewDate (s : Option String) : Option (Nat × Nat × Nat) :=
  match s with
  | none => none
  | some str =>
    match jsSplitChar '-' str with
    | [y, m, d] =>
      match parseNatDigits y.data, parseNatDigits m.data, parseNatDigits d.data with
      | some yn, some mn, some dn =>
        if 1 ≤ mn ∧ mn ≤ 12 ∧ 1 ≤ dn ∧ dn ≤ 31 then some (yn, mn, dn) else none
      | _, _, _ => none
    | _ => none

/-- Two-digit field of the locale date format. -/
def pad2 (n : Nat) : String := if n < 10 then "0" ++ natToStr n else natToStr n

/-- Models toLocaleDateString with the zh-CN locale and two-digit day and
month options, as called by postPage: an invalid date formats as the
string "Invalid Date". -/
def toLocaleDateStringZhCN (d : Option (Nat × Nat × Nat)) : String :=
  match d with
  | none => "Invalid Date"
  | some (y, m, dd) => natToStr y ++ "/" ++ pad2 m ++ "/" ++ pad2 dd

/-! ### Component overrides and page assembly (postPage) -/

/-- A renderable fragment: the process-wide defaults of the page plus
opaque per-document fragments identified by a tag name. -/
inductive Fragment where
  | link
  | customHeadingTag (level : Nat)
  | custom (tag : String)
deriving DecidableEq, Repr

/-- The component object literal of src/unnamed/part_004 lines 120-127
before the spread of postComponents: the link renderer and the four
CustomHeading wrappers. -/
def defaultComponents : List (String × Fragment) :=
  [("a", Fragment.link),
   ("h1", Fragment.customHeadingTag 1),
   ("h2", Fragment.customHeadingTag 2),
   ("h3", Fragment.customHeadingTag 3),
   ("h4", Fragment.customHeadingTag 4)]

/-- Outcome of the dynamic import of the per-document components module. -/
inductive ImportOutcome where
  | resolved (m : List (String × Fragment))
  | failed (code : String)
deriving DecidableEq, Repr

/-- The failures postPage can surface: the readFile call throwing on a
missing document, or a rethrown import failure. -/
inductive PageError where
  | readFileFailed
  | importFailed (code : String)
deriving DecidableEq, Repr

/-- Embeds the try/catch around the dynamic import (src/app/[slug]/page.tsx
lines 40-47, identical in src/unnamed/part_004 lines 82-89): a failure
whose code is MODULE_NOT_FOUND leaves postComponents empty, while any
other failure is rethrown. -/
def loadPostComponents (imp : ImportOutcome) :
    Except PageError (List (String × Fragment)) :=
  match imp with
  | ImportOutcome.resolved m => Except.ok m
  | ImportOutcome.failed code =>
    if code = "MODULE_NOT_FOUND" then Except.ok []
    else Except.error (PageError.importFailed code)

/-- JavaScript object spread of ext over base as an association list in
object key order: keys of base keep their position with values overridden
by ext on collision, and keys only in ext follow in ext order. -/
def jsSpread (base ext : List (String × Fragment)) : List (String × Fragment) :=
  (base.map fun p =>
    match assocGet ext p.fst with
    | some v => (p.fst, v)
    | none => p)
  ++ ext.filter (fun q => (assocGet base q.fst).isNone)

/-- The output assembled by postPage (src/unnamed/part_004 lines 79-178):
title and formatted date of the header, the table-of-contents records, the
body source handed to MDXRemote, and the merged component mapping. -/
structure Rendered where
  title : Option String
  formattedDate : String
  headings : List HeadingRecord
  body : String
  components : List (String × Fragment)
deriving DecidableEq, Repr

/-- The document path read by postPage for a slug. -/
def postIndexPath (slug : String) : String := "./public/" ++ slug ++ "/index.md"

/-- Embeds postPage (src/app/[slug]/page.tsx lines 37-99 and
src/unnamed/part_004 lines 79-178): read the document file (a missing file
makes readFile throw), load the optional per-document components, split the
front matter, extract the headings, and assemble the page. No front matter
validation of any kind is performed before assembly. -/
def postPage (fs : String → Option String) (slug : String) (imp : ImportOutcome) :
    Except PageError Rendered :=
  match fs (postIndexPath slug) with
  | none => Except.error PageError.readFileFailed
  | some file =>
    match loadPostComponents imp with
    | Except.error e => Except.error e
    | Except.ok postComponents =>
      let r := matter file
      Except.ok
        { title := assocGet r.data "title"
          formattedDate := toLocaleDateStringZhCN (jsNewDate (assocGet r.data "date"))
          headings := getHeadings r.content
          body := r.content
          components := jsSpread defaultComponents postComponents }

/-! ### The MDX plugin pipeline of src/app/[slug]/page.tsx lines 71-88 -/

/-- The four transform passes configured on MDXRemote. -/
inductive Stage where
  | typography
  | evaluate
  | math
  | highlight
deriving DecidableEq, Repr

/-- The configured remark plugin array: remarkSmartpants, then
remarkMdxEvalCodeBlock with the filename argument. -/
def remarkPluginList : List Stage := [Stage.typography, Stage.evaluate]

/-- The configured rehype plugin array: rehypeKatex, then rehypePrettyCode
with the theme option. -/
def rehypePluginList : List Stage := [Stage.math, Stage.highlight]

/-- The unified compiler underneath MDX runs every remark plugin on the
markdown tree, converts the tree, and then runs every rehype plugin on the
html tree, each array in declaration order: this is the full stage order
of one render. -/
def pipelineStages : List Stage := remarkPluginList ++ rehypePluginList

/-- Threads one tree through all configured stages in pipeline order, each
stage transforming the tree produced by the stage before it. -/
def runPipeline {α : Type} (apply : Stage → α → α) (t : α) : α :=
  pipelineStages.foldl (fun tree s => apply s tree) t

/-- The stage order asserted by the specification, section 4.5: typography,
then math, then highlighting, then evaluation. -/
def specStageOrder : List Stage :=
  [Stage.typography, Stage.math, Stage.highlight, Stage.evaluate]

/-! ### The two generateStaticParams implementations -/

/-- One entry of the public directory listing with file types. -/
structure DirEntry where
  name : String
  isDirectory : Bool
deriving DecidableEq, Repr

/-- Embeds generateStaticParams of src/app/[slug]/page.tsx lines 20-26:
every subdirectory name becomes a slug. -/
def generateStaticParamsAll (entries : List DirEntry) : List String :=
  (entries.filter (fun e => e.isDirectory)).map (fun e => e.name)

/-- The index path the checked version reads, as Node normalizes the
joined path of the public directory, the entry name and the file name. -/
def publicIndexPath (name : String) : String := "public/" ++ name ++ "/index.md"

/-- Embeds generateStaticParams of src/unnamed/part_004 lines 21-43: a
subdirectory name becomes a slug only when reading its index file
succeeds; a directory whose index file cannot be read is skipped. -/
def generateStaticParamsChecked (entries : List DirEntry)
    (fs : String → Option String) : List String :=
  ((entries.filter (fun e => e.isDirectory)).filter
      (fun e => (fs (publicIndexPath e.name)).isSome)).map (fun e => e.name)

/-! ### Lookup lemmas for the spread component mapping -/

lemma assocGet_append {β : Type} (l1 l2 : List (String × β)) (key : String) :
    assocGet (l1 ++ l2) key =
      match assocGet l1 key with
      | some v => some v
      | none => assocGet l2 key := by
  induction l1 with
  | nil => rfl
  | cons p rest ih =>
    rcases p with ⟨k, v⟩
    by_cases hk : k = key
    · simp [assocGet, hk]
    · simp [assocGet, hk, ih]

lemma assocGet_mapOverride (base ext : List (String × Fragment)) (key : String)
    (hbase : (assocGet base key).isSome = true)
    (hext : (assocGet ext key).isSome = true) :
    assocGet (base.map fun p =>
        match assocGet ext p.fst with
        | some v => (p.fst, v)
        | none => p) key = assocGet ext key := by
  induction base with
  | nil => simp [assocGet] at hbase
  | cons p rest ih =>
    rcases p with ⟨k, v⟩
    by_cases hk : k = key
    · subst hk
      rcases hw : assocGet ext k with _ | w
      · rw [hw] at hext
        simp at hext
      · simp [List.map_cons, hw, assocGet]
    · have hbase2 : (assocGet rest key).isSome = true := by
        simpa [assocGet, hk] using hbase
      rcases hw : assocGet ext k with _ | w <;>
        simp [List.map_cons, hw, assocGet, hk, ih hbase2]

lemma assocGet_jsSpread (base ext : List (String × Fragment)) (key : String)
    (hbase : (assocGet base key).isSome = true)
    (hext : (assocGet ext key).isSome = true) :
    assocGet (jsSpread base ext) key = assocGet ext key := by
  unfold jsSpread
  rw [assocGet_append, assocGet_mapOverride base ext key hbase hext]
  rcases hw : assocGet ext key with _ | w
  · rw [hw] at hext
    simp at hext
  · rfl

/-! ### Claims C3, C4, C5, C7, C9, C10 -/

/-- Claim C3, counterexample: the configured stage order is typography,
then code evaluation, then math, then highlighting — the evaluation plugin
sits in the remark phase, which runs before both rehype plugins — so the
order is not the one the claim states, which places evaluation last. -/
theorem c3_counterexample : pipelineStages ≠ specStageOrder := by decide

/-- Claim C3, amended: the stages run in the fixed configured order
typography, code evaluation, math, code highlighting, and each stage
receives exactly the tree produced by the stage before it. -/
theorem c3_amended {α : Type} (apply : Stage → α → α) (t : α) :
    runPipeline apply t =
      apply Stage.highlight
        (apply Stage.math (apply Stage.evaluate (apply Stage.typography t))) := rfl

/-- Document fixture for claim C4: front matter block present, title
present, required key date absent. -/
def fileC4 : String := "---\ntitle: A\n---\nBody\n"

/-- File system fixture for claim C4. -/
def fsC4 : String → Option String := fun p =>
  if p = "./public/post/index.md" then some fileC4 else none

/-- Claim C4, counterexample: on a document whose front matter block is
present but lacks the required key date, postPage does not fail — it
assembles and returns a rendered document (with the formatted date string
"Invalid Date"); no MalformedFrontMatter failure exists in the code. -/
theorem c4_counterexample :
    (postPage fsC4 "post" (ImportOutcome.failed "MODULE_NOT_FOUND")).isOk = true
    ∧ (postPage fsC4 "post" (ImportOutcome.failed "MODULE_NOT_FOUND")).toOption.map
        Rendered.formattedDate = some "Invalid Date" := by
  decide

/-- Claim C4, amended: postPage performs no required-key validation: for
every document file content whatsoever, when the file exists and the
component import resolves, the render succeeds, and when the key date is
absent from the parsed front matter the assembled document carries the
formatted date string "Invalid Date". -/
theorem c4_amended (fs : String → Option String) (slug : String) (file : String)
    (m : List (String × Fragment)) (hfile : fs (postIndexPath slug) = some file) :
    (postPage fs slug (ImportOutcome.resolved m)).isOk = true
    ∧ (assocGet (matter file).data "date" = none →
        (postPage fs slug (ImportOutcome.resolved m)).toOption.map
          Rendered.formattedDate = some "Invalid Date") := by
  unfold postPage loadPostComponents
  rw [hfile]
  refine ⟨rfl, ?_⟩
  intro hdate
  simp [Except.toOption, hdate, jsNewDate, toLocaleDateStringZhCN]

/-- Witness for the amended claim C4 at a concrete document. -/
theorem c4_amended_witness :
    (postPage fsC4 "post" (ImportOutcome.resolved [])).isOk = true
    ∧ (assocGet (matter fileC4).data "date" = none →
        (postPage fsC4 "post" (ImportOutcome.resolved [])).toOption.map
          Rendered.formattedDate = some "Invalid Date") :=
  c4_amended fsC4 "post" fileC4 [] (by decide)

/-- Document fixture for claim C5: required keys present but the date
value is not parsable as a calendar date. -/
def fileC5 : String := "---\ntitle: A\ndate: not-a-date\n---\nBody\n"

/-- File system fixture for claim C5. -/
def fsC5 : String → Option String := fun p =>
  if p = "./public/post/index.md" then some fileC5 else none

/-- Claim C5, counterexample: on a document whose front matter date cannot
be parsed as a calendar date, the render is not aborted and no typed
InvalidDate failure is surfaced: postPage assembles and returns a rendered
document whose formatted date is the string "Invalid Date". -/
theorem c5_counterexample :
    (postPage fsC5 "post" (ImportOutcome.failed "MODULE_NOT_FOUND")).isOk = true
    ∧ (postPage fsC5 "post" (ImportOutcome.failed "MODULE_NOT_FOUND")).toOption.map
        Rendered.formattedDate = some "Invalid Date" := by
  decide

/-- Claim C5, amended: an unparsable date does not abort the render: when
the document file exists, the component import resolves, and the date value
does not parse as a calendar date, postPage still returns a rendered
document, and its formatted date is the string "Invalid Date". -/
theorem c5_amended (fs : String → Option String) (slug : String) (file : String)
    (m : List (String × Fragment)) (hfile : fs (postIndexPath slug) = some file)
    (hdate : jsNewDate (assocGet (matter file).data "date") = none) :
    (postPage fs slug (ImportOutcome.resolved m)).isOk = true
    ∧ (postPage fs slug (ImportOutcome.resolved m)).toOption.map
        Rendered.formattedDate = some "Invalid Date" := by
  unfold postPage loadPostComponents
  rw [hfile]
  refine ⟨rfl, ?_⟩
  simp [Except.toOption, hdate, toLocaleDateStringZhCN]

/-- Witness for the amended claim C5 at a concrete document. -/
theorem c5_amended_witness :
    (postPage fsC5 "post" (ImportOutcome.resolved [])).isOk = true
    ∧ (postPage fsC5 "post" (ImportOutcome.resolved [])).toOption.map
        Rendered.formattedDate = some "Invalid Date" :=
  c5_amended fsC5 "post" fileC5 [] (by decide) (by decide)

/-- Document fixture for claim C7. -/
def fileC7 : String := "---\ntitle: A\ndate: 2024-01-01\n---\nBody\n"

/-- File system fixture for claim C7. -/
def fsC7 : String → Option String := fun p =>
  if p = "./public/post/index.md" then some fileC7 else none

/-- Claim C7: absence of the per-document component override module
(a failure of the import with code MODULE_NOT_FOUND) is not an error — the render
proceeds, with the override set left empty — while an import failure with
any other code propagates as a typed failure; and every placeholder name
present in both the document overrides and the process-wide defaults
resolves to the document override in the merged component mapping. -/
theorem c7_overrides (fs : String → Option String) (slug : String) (file : String)
    (hfile : fs (postIndexPath slug) = some file) :
    (postPage fs slug (ImportOutcome.failed "MODULE_NOT_FOUND")).isOk = true
    ∧ (∀ code : String, code ≠ "MODULE_NOT_FOUND" →
        postPage fs slug (ImportOutcome.failed code) =
          Except.error (PageError.importFailed code))
    ∧ (∀ post : List (String × Fragment), ∀ name : String,
        (assocGet post name).isSome = true →
        (assocGet defaultComponents name).isSome = true →
          assocGet (jsSpread defaultComponents post) name = assocGet post name) := by
  refine ⟨?_, ?_, ?_⟩
  · unfold postPage loadPostComponents
    rw [hfile]
    rfl
  · intro code hcode
    unfold postPage loadPostComponents
    rw [hfile]
    simp [hcode]
  · intro post name hpost hdef
    exact assocGet_jsSpread defaultComponents post name hdef hpost

/-- Witness for claim C7 at a concrete document and override set. -/
theorem c7_overrides_witness :
    (postPage fsC7 "post" (ImportOutcome.failed "MODULE_NOT_FOUND")).isOk = true
    ∧ assocGet (jsSpread defaultComponents [("a", Fragment.custom "X")]) "a" =
        assocGet [("a", Fragment.custom "X")] "a" :=
  ⟨(c7_overrides fsC7 "post" fileC7 (by decide)).1,
   (c7_overrides fsC7 "post" fileC7 (by decide)).2.2
     [("a", Fragment.custom "X")] "a" (by decide) (by decide)⟩

/-- File system fixtures for claim C9: the two differ outside the
document path of the rendered slug. -/
def fsC9a : String → Option String := fun p =>
  if p = "./public/post/index.md" then some fileC7
  else if p = "./public/other/index.md" then some "other" else none

/-- Second file system fixture for claim C9. -/
def fsC9b : String → Option String := fun p =>
  if p = "./public/post/index.md" then some fileC7 else none

/-- Claim C9: the render is deterministic and idempotent — its output is a
function of the document bytes and the import outcome alone, so two renders
of the same identifier whose file reads return the same content and whose
override import resolves identically produce structurally identical
rendered documents (same anchors, same table of contents, same shape). -/
theorem c9_deterministic (fs1 fs2 : String → Option String) (slug : String)
    (imp : ImportOutcome)
    (hsame : fs1 (postIndexPath slug) = fs2 (postIndexPath slug)) :
    postPage fs1 slug imp = postPage fs2 slug imp := by
  unfold postPage
  rw [hsame]

/-- Witness for claim C9 at two concrete file systems agreeing on the
rendered document. -/
theorem c9_deterministic_witness :
    postPage fsC9a "post" (ImportOutcome.failed "MODULE_NOT_FOUND") =
      postPage fsC9b "post" (ImportOutcome.failed "MODULE_NOT_FOUND") :=
  c9_deterministic fsC9a fsC9b "post" (ImportOutcome.failed "MODULE_NOT_FOUND")
    (by decide)

/-- Claim C10, counterexample: on a public directory holding one
subdirectory with no readable index file, the version of
src/app/[slug]/page.tsx lists the slug while the checked version of
src/unnamed/part_004 lists nothing, so the two are not equivalent. -/
theorem c10_counterexample :
    generateStaticParamsAll [{ name := "x", isDirectory := true }] ≠
      generateStaticParamsChecked [{ name := "x", isDirectory := true }]
        (fun _ => none) := by
  decide

/-- Claim C10, amended: the checked version returns exactly the sublist, in
the same order, of the unchecked version consisting of the subdirectories
whose index file is readable; the two agree precisely on layouts where
every subdirectory has a readable index file. -/
theorem c10_amended (entries : List DirEntry) (fs : String → Option String) :
    generateStaticParamsChecked entries fs =
      (generateStaticParamsAll entries).filter
        (fun n => (fs (publicIndexPath n)).isSome)
    ∧ ((∀ n ∈ generateStaticParamsAll entries, (fs (publicIndexPath n)).isSome = true) →
        generateStaticParamsChecked entries fs = generateStaticParamsAll entries) := by
  have hfm :
      generateStaticParamsChecked entries fs =
        (generateStaticParamsAll entries).filter
          (fun n => (fs (publicIndexPath n)).isSome) := by
    unfold generateStaticParamsChecked generateStaticParamsAll
    rw [List.filter_map]
    rfl
  refine ⟨hfm, ?_⟩
  intro hall
  rw [hfm]
  exact List.filter_eq_self.mpr hall

/-- Witness for the amended claim C10 on a layout where every subdirectory
has a readable index file. -/
theorem c10_amended_witness :
    generateStaticParamsChecked [{ name := "x", isDirectory := true }]
        (fun _ => some "") =
      generateStaticParamsAll [{ name := "x", isDirectory := true }] :=
  (c10_amended [{ name := "x", isDirectory := true }] (fun _ => some "")).2
    (by decide)

end Wood
